import Mathlib

/-!
# SDL3-uwp: mutex shim, WinRT filesystem paths and the WASAPI header

A shallow embedding of

* `src/thread/stdcpp/SDL_sysmutex.cpp` (the `std::mutex` backed `SDL_Mutex`),
* `src/filesystem/winrt/SDL_sysfilesystem.cpp` (base path and pref path),
* `src/audio/wasapi/SDL_wasapi.h` (the private device record and the
  platform hook declarations),

followed by the properties established about them.

Conventions: a C pointer is a natural number, `NULL` is `0`; a C string is the
list of its code units before the terminating NUL; calls into the operating
system or into parts of SDL that are not in these three files are parameters
of the embedding (an environment record) and their effects are logged.
-/

namespace SDL

/-! ## Shared: pointers and the SDL error slot -/

/-- A C pointer value. -/
abbrev Ptr := Nat

/-- The null pointer. -/
def NULL : Ptr := 0

/-- Contents of the SDL error slot after one of the error-setting calls used in
these files. `formatted` keeps the format string and its rendered arguments
apart, as `SDL_SetError(fmt, ...)` receives them; `formattedWith` is a format
whose one `%s` argument is `SDL_GetError()`, the text of the error that was in
the slot. -/
inductive SDL_ErrorState where
  | unset
  | outOfMemory
  | invalidParam (param : String)
  | unsupported
  | formatted (fmt : String) (args : List String)
  | formattedWith (fmt : String) (lastError : SDL_ErrorState)
  | windowsError (what : String)
deriving DecidableEq, Repr

/-! ## `SDL_sysmutex.cpp` -/

/-- The `std::mutex` held in the `cpp_mutex` member. -/
structure StdMutex where
  locked : Bool
deriving DecidableEq, Repr

/-- The `SDL_Mutex` object (declared in `SDL_sysmutex_c.h`): one `std::mutex`. -/
structure SDL_Mutex where
  cpp_mutex : StdMutex
deriving DecidableEq, Repr

/-- Behaviour of `std::mutex::try_lock`: takes the mutex when it is free and
reports whether it did. -/
def StdMutex.try_lock (m : StdMutex) : Bool × StdMutex :=
  if m.locked then (false, m) else (true, { locked := true })

/-- Behaviour of `std::mutex::lock` in a sequential run: takes a free mutex;
on a mutex that is already held it raises `std::system_error`
(`resource_deadlock_would_occur`), reported here as `none`. -/
def StdMutex.lock (m : StdMutex) : Option StdMutex :=
  if m.locked then none else some { locked := true }

/-- Behaviour of `std::mutex::unlock`. -/
def StdMutex.unlock (_m : StdMutex) : StdMutex :=
  { locked := false }

/-- What the expression `new SDL_Mutex` can do. -/
inductive NewOutcome where
  | ok
  | bad_alloc
  | system_error (code : Int) (what : String)
deriving DecidableEq, Repr

/-- Everything the mutex functions can observe or change: the live mutex
objects (slot `i` is the object at address `i + 1`, `none` once deleted), the
error slot, how many times `new SDL_Mutex` was evaluated, and how many
`SDL_assert`s fired. -/
structure MutexWorld where
  heap : List (Option SDL_Mutex)
  error : SDL_ErrorState
  newCalls : Nat
  assertions : Nat
deriving DecidableEq, Repr

/-- The object a pointer designates, if it is a live mutex. Using a non-null
pointer that designates no live mutex is undefined behaviour in C++; the
functions below leave the world as it is in that case. -/
def MutexWorld.deref (w : MutexWorld) (p : Ptr) : Option SDL_Mutex :=
  if p = 0 then none else (w.heap.getD (p - 1) none)

/-- Store an object at a non-null address. -/
def MutexWorld.store (w : MutexWorld) (p : Ptr) (o : Option SDL_Mutex) : MutexWorld :=
  { w with heap := w.heap.set (p - 1) o }

/-- Embedding of `SDL_CreateMutex`. The outcome of the k-th evaluation of `new SDL_Mutex`
(counted from 0 over the life of the world) is `alloc k`. -/
def SDL_CreateMutex (alloc : Nat → NewOutcome) (w : MutexWorld) : Ptr × MutexWorld :=
  let w1 := { w with newCalls := w.newCalls + 1 }
  match alloc w.newCalls with
  | .ok =>
      -- SDL_Mutex *mutex = new SDL_Mutex; return mutex;
      (w1.heap.length + 1, { w1 with heap := w1.heap ++ [some { cpp_mutex := { locked := false } }] })
  | .system_error code what =>
      -- SDL_SetError("unable to create a C++ mutex: code=%d; %s", ex.code(), ex.what());
      (NULL, { w1 with
        error := SDL_ErrorState.formatted "unable to create a C++ mutex: code=%d; %s" [toString code, what] })
  | .bad_alloc =>
      -- SDL_OutOfMemory();
      (NULL, { w1 with error := SDL_ErrorState.outOfMemory })

/-- Embedding of `SDL_DestroyMutex`. -/
def SDL_DestroyMutex (mutex : Ptr) (w : MutexWorld) : MutexWorld :=
  if mutex ≠ 0 then w.store mutex none else w

/-- Embedding of `SDL_LockMutex`. -/
def SDL_LockMutex (mutex : Ptr) (w : MutexWorld) : MutexWorld :=
  if mutex ≠ 0 then
    match w.deref mutex with
    | some obj =>
        match obj.cpp_mutex.lock with
        | some m => w.store mutex (some { cpp_mutex := m })
        | none => { w with assertions := w.assertions + 1 }
    | none => w
  else w

/-- Embedding of `SDL_TryLockMutex`. -/
def SDL_TryLockMutex (mutex : Ptr) (w : MutexWorld) : Bool × MutexWorld :=
  if mutex ≠ 0 then
    match w.deref mutex with
    | some obj =>
        let r := obj.cpp_mutex.try_lock
        (r.1, w.store mutex (some { cpp_mutex := r.2 }))
    | none => (true, w)
  else (true, w)

/-- Embedding of `SDL_UnlockMutex`. -/
def SDL_UnlockMutex (mutex : Ptr) (w : MutexWorld) : MutexWorld :=
  if mutex ≠ 0 then
    match w.deref mutex with
    | some obj => w.store mutex (some { cpp_mutex := obj.cpp_mutex.unlock })
    | none => w
  else w

/-! ## `SDL_sysfilesystem.cpp` -/

/-- A wide (`wchar_t`) C string: its code units before the terminating NUL. -/
abbrev WStr := List Nat

/-- A narrow (`char`) C string: its bytes before the terminating NUL. -/
abbrev CStr := List Nat

/-- The backslash, `'\\'` and `L'\\'`. -/
def BACKSLASH : Nat := 92

/-- Windows constant `MAX_PATH` (from the Windows headers). -/
def MAX_PATH : Nat := 260

/-- Windows constant `ERROR_ALREADY_EXISTS` (from the Windows headers). -/
def ERROR_ALREADY_EXISTS : Nat := 183

/-- The enum `SDL_WinRT_Path`; `other` stands for any value outside the four
named ones, which a C enum variable can hold. -/
inductive SDL_WinRT_Path where
  | SDL_WINRT_PATH_INSTALLED_LOCATION
  | SDL_WINRT_PATH_LOCAL_FOLDER
  | SDL_WINRT_PATH_ROAMING_FOLDER
  | SDL_WINRT_PATH_TEMP_FOLDER
  | other (value : Nat)
deriving DecidableEq, Repr

/-- What the file takes from outside: the WinRT storage API, the two string
conversions of `SDL_windows.h`, the allocator, `SDL_GetPersistentString` and
`CreateDirectoryW`.

* `effectiveLocationBuild` is the compile-time condition guarding the
  `EffectiveLocation` branch and `apiContractPresent` the run-time test inside it;
* `roamingTempBuild` is the compile-time condition
  `!SDL_WINAPI_FAMILY_PHONE || NTDDI_VERSION > NTDDI_WIN8`;
* a conversion or `SDL_GetPersistentString` yields `none` when it returns NULL;
* `SDL_malloc n` tells whether an allocation of `n` bytes yields a buffer;
* `CreateDirectoryW log path` is the pair (return value, `GetLastError()`)
  of the call, given the paths of the calls made before it. -/
structure WinRTEnv where
  effectiveLocationBuild : Bool
  apiContractPresent : Bool
  roamingTempBuild : Bool
  EffectiveLocation : WStr
  InstalledLocation : WStr
  LocalFolder : WStr
  RoamingFolder : WStr
  TemporaryFolder : WStr
  WIN_StringToUTF8W : WStr → Option CStr
  WIN_UTF8ToStringW : CStr → Option WStr
  SDL_malloc : Nat → Bool
  SDL_GetPersistentString : CStr → Option CStr
  CreateDirectoryW : List WStr → WStr → Bool × Nat

/-- The mutable state the file touches: the four function-local
`static wstring path` caches, the `static UTF8PathMap utf8Paths`, the SDL error
slot and the log of `CreateDirectoryW` calls (oldest first). -/
structure FsState where
  installedPath : WStr
  localPath : WStr
  roamingPath : WStr
  tempPath : WStr
  utf8Paths : List (SDL_WinRT_Path × CStr)
  error : SDL_ErrorState
  createdDirs : List WStr
deriving DecidableEq, Repr

/-- SDL string routine `SDL_wcslcpy(dst, src, maxlen)` (body outside these
files), by its documented contract: copies at most `maxlen - 1` units and
terminates; with `maxlen = 0` the destination is untouched. Gives the new
contents of `dst`. -/
def SDL_wcslcpy (dst src : WStr) (maxlen : Nat) : WStr :=
  if maxlen > 0 then src.take (min src.length (maxlen - 1)) else dst

/-- SDL string routine `SDL_wcslcat(dst, src, maxlen)` (body outside these
files), by its documented contract: appends at the end of `dst` as much of
`src` as keeps the whole within `maxlen - 1` units. Gives the new contents of
`dst`. -/
def SDL_wcslcat (dst src : WStr) (maxlen : Nat) : WStr :=
  if dst.length < maxlen then dst ++ SDL_wcslcpy [] src (maxlen - dst.length) else dst

/-- The call `SDL_snprintf(dest, maxlen, "%s\\", src)` (body outside these
files), by its documented contract: the formatted text `src` + backslash, cut
to at most `maxlen - 1` bytes. Gives the contents of `dest`. -/
def SDL_snprintf_path (maxlen : Nat) (src : CStr) : CStr :=
  (src ++ [BACKSLASH]).take (maxlen - 1)

/-- Embedding of `SDL_GetWinRTFSPathUNICODE`. -/
def SDL_GetWinRTFSPathUNICODE (env : WinRTEnv) (pathType : SDL_WinRT_Path) (s : FsState) :
    Option WStr × FsState :=
  match pathType with
  | .SDL_WINRT_PATH_INSTALLED_LOCATION =>
      let path :=
        if s.installedPath.isEmpty then
          if env.effectiveLocationBuild then
            if env.apiContractPresent then env.EffectiveLocation else env.InstalledLocation
          else env.InstalledLocation
        else s.installedPath
      (some path, { s with installedPath := path })
  | .SDL_WINRT_PATH_LOCAL_FOLDER =>
      let path := if s.localPath.isEmpty then env.LocalFolder else s.localPath
      (some path, { s with localPath := path })
  | .SDL_WINRT_PATH_ROAMING_FOLDER =>
      if env.roamingTempBuild then
        let path := if s.roamingPath.isEmpty then env.RoamingFolder else s.roamingPath
        (some path, { s with roamingPath := path })
      else (none, { s with error := SDL_ErrorState.unsupported })
  | .SDL_WINRT_PATH_TEMP_FOLDER =>
      if env.roamingTempBuild then
        let path := if s.tempPath.isEmpty then env.TemporaryFolder else s.tempPath
        (some path, { s with tempPath := path })
      else (none, { s with error := SDL_ErrorState.unsupported })
  | .other _ => (none, { s with error := SDL_ErrorState.unsupported })

/-- Lookup in `utf8Paths` (`unordered_map::find`). -/
def utf8Paths_find (m : List (SDL_WinRT_Path × CStr)) (k : SDL_WinRT_Path) : Option CStr :=
  (m.find? (fun e => decide (e.1 = k))).map Prod.snd

/-- Assignment `utf8Paths[k] = v`. -/
def utf8Paths_set (m : List (SDL_WinRT_Path × CStr)) (k : SDL_WinRT_Path) (v : CStr) :
    List (SDL_WinRT_Path × CStr) :=
  (k, v) :: m.filter (fun e => decide (e.1 ≠ k))

/-- Embedding of `SDL_GetWinRTFSPath`. The outer `none` is undefined behaviour: when
`WIN_StringToUTF8W` returns NULL the code assigns a null `char *` to a
`std::string`. -/
def SDL_GetWinRTFSPath (env : WinRTEnv) (pathType : SDL_WinRT_Path) (s : FsState) :
    Option (Option CStr × FsState) :=
  match utf8Paths_find s.utf8Paths pathType with
  | some cached => some (some cached, s)
  | none =>
      match SDL_GetWinRTFSPathUNICODE env pathType s with
      | (none, s1) => some (none, s1)
      | (some ucs2Path, s1) =>
          match env.WIN_StringToUTF8W ucs2Path with
          | none => none
          | some utf8Path =>
              let s2 := { s1 with utf8Paths := utf8Paths_set s1.utf8Paths pathType utf8Path }
              some (env.SDL_GetPersistentString utf8Path, s2)

/-- Embedding of `SDL_SYS_GetBasePath`. The outer `none` is the undefined behaviour
inherited from `SDL_GetWinRTFSPath`. -/
def SDL_SYS_GetBasePath (env : WinRTEnv) (s : FsState) : Option (Option CStr × FsState) :=
  match SDL_GetWinRTFSPath env .SDL_WINRT_PATH_INSTALLED_LOCATION s with
  | none => none
  | some (none, s1) =>
      -- SDL_SetError("Couldn't locate our basepath: %s", SDL_GetError());
      some (none, { s1 with
        error := SDL_ErrorState.formattedWith "Couldn't locate our basepath: %s" s1.error })
  | some (some srcPath, s1) =>
      let destPathLen := srcPath.length + 2
      if env.SDL_malloc destPathLen then
        some (some (SDL_snprintf_path destPathLen srcPath), s1)
      else some (none, s1)

/-- Embedding of `SDL_SYS_GetPrefPath`; `org` and `app` are `none` when NULL. -/
def SDL_SYS_GetPrefPath (env : WinRTEnv) (org app : Option CStr) (s : FsState) :
    Option CStr × FsState :=
  match app with
  | none => (none, { s with error := SDL_ErrorState.invalidParam "app" })
  | some app =>
    let org := org.getD []
    match SDL_GetWinRTFSPathUNICODE env .SDL_WINRT_PATH_LOCAL_FOLDER s with
    | (none, s1) =>
        (none, { s1 with error := SDL_ErrorState.formatted "Unable to find a source path" [] })
    | (some srcPath, s1) =>
      if srcPath.length ≥ MAX_PATH then
        (none, { s1 with error := SDL_ErrorState.formatted "Path too long." [] })
      else
        let path := SDL_wcslcpy [] srcPath MAX_PATH
        match env.WIN_UTF8ToStringW org with
        | none => (none, s1)
        | some worg =>
          match env.WIN_UTF8ToStringW app with
          | none => (none, s1)
          | some wapp =>
            let new_wpath_len := worg.length + wapp.length + path.length + 3
            if new_wpath_len + 1 > MAX_PATH then
              (none, { s1 with error := SDL_ErrorState.formatted "Path too long." [] })
            else
              let path :=
                if worg ≠ [] then
                  SDL_wcslcat (SDL_wcslcat path [BACKSLASH] (new_wpath_len + 1)) worg
                    (new_wpath_len + 1)
                else path
              let api_result := env.CreateDirectoryW s1.createdDirs path
              let s2 := { s1 with createdDirs := s1.createdDirs ++ [path] }
              if api_result.1 = false ∧ api_result.2 ≠ ERROR_ALREADY_EXISTS then
                (none, { s2 with error := SDL_ErrorState.windowsError "Couldn't create a prefpath." })
              else
                let path := SDL_wcslcat path [BACKSLASH] (new_wpath_len + 1)
                let path := SDL_wcslcat path wapp (new_wpath_len + 1)
                let api_result := env.CreateDirectoryW s2.createdDirs path
                let s3 := { s2 with createdDirs := s2.createdDirs ++ [path] }
                if api_result.1 = false ∧ api_result.2 ≠ ERROR_ALREADY_EXISTS then
                  (none, { s3 with error := SDL_ErrorState.windowsError "Couldn't create a prefpath." })
                else
                  let path := SDL_wcslcat path [BACKSLASH] (new_wpath_len + 1)
                  (env.WIN_StringToUTF8W path, s3)

/-! ## `SDL_wasapi.h` -/

/-- The struct `SDL_PrivateAudioData`. Pointers and handles are `Ptr`,
`device_disconnecting` is the value held by the `SDL_AtomicInt`. -/
structure SDL_PrivateAudioData where
  devid : Ptr
  waveformat : Ptr
  client : Ptr
  render : Ptr
  capture : Ptr
  event : Ptr
  task : Ptr
  coinitialized : Bool
  framesize : Int
  device_disconnecting : Int
  device_lost : Bool
  device_dead : Bool
  activation_handler : Ptr
deriving DecidableEq, Repr

/-- A C type as it occurs in the prototypes of the header. -/
inductive CType where
  | void
  | bool
  | boolPtr
  | voidPtr
  | audioDevicePtr
  | audioDevicePtrPtr
  | managementThreadTask
deriving DecidableEq, Repr

/-- The comment block of the header a prototype stands under. -/
inductive DeclGroup where
  | calledByPlatforms
  | managementProxy
  | platformSpecific
deriving DecidableEq, Repr

/-- The thread a platform function runs on: the management thread unless the
prototype carries the note about the audio device thread. -/
inductive RunsOn where
  | managementThread
  | audioDeviceThread
deriving DecidableEq, Repr

/-- One function prototype of the header. -/
structure Prototype where
  name : String
  returns : CType
  params : List CType
  group : DeclGroup
  runsOn : RunsOn
deriving DecidableEq, Repr

/-- The function prototypes of `SDL_wasapi.h`, in the order of the file. -/
def headerPrototypes : List Prototype :=
  [ ⟨"WASAPI_PrepDevice", .bool, [.audioDevicePtr], .calledByPlatforms, .managementThread⟩,
    ⟨"WASAPI_DisconnectDevice", .void, [.audioDevicePtr], .calledByPlatforms, .managementThread⟩,
    ⟨"WASAPI_ProxyToManagementThread", .bool, [.managementThreadTask, .voidPtr, .boolPtr],
      .managementProxy, .managementThread⟩,
    ⟨"WASAPI_PlatformInit", .bool, [], .platformSpecific, .managementThread⟩,
    ⟨"WASAPI_PlatformDeinit", .void, [], .platformSpecific, .managementThread⟩,
    ⟨"WASAPI_PlatformDeinitializeStart", .void, [], .platformSpecific, .managementThread⟩,
    ⟨"WASAPI_EnumerateEndpoints", .void, [.audioDevicePtrPtr, .audioDevicePtrPtr],
      .platformSpecific, .managementThread⟩,
    ⟨"WASAPI_ActivateDevice", .bool, [.audioDevicePtr], .platformSpecific, .managementThread⟩,
    ⟨"WASAPI_PlatformThreadInit", .void, [.audioDevicePtr], .platformSpecific, .audioDeviceThread⟩,
    ⟨"WASAPI_PlatformThreadDeinit", .void, [.audioDevicePtr], .platformSpecific, .audioDeviceThread⟩,
    ⟨"WASAPI_PlatformDeleteActivationHandler", .void, [.voidPtr], .platformSpecific,
      .managementThread⟩,
    ⟨"WASAPI_PlatformFreeDeviceHandle", .void, [.audioDevicePtr], .platformSpecific,
      .managementThread⟩ ]

/-- The platform hooks: the prototypes under "These are functions that are
implemented differently for Windows vs WinRT." -/
def platformHooks : List Prototype :=
  headerPrototypes.filter (fun d => decide (d.group = DeclGroup.platformSpecific))

/-- The hook list of section 4.4 of the design text, in its order and with its
names. -/
def specHookSeam : List String :=
  [ "platformInit", "platformDeinit", "platformDeinitStart", "enumerateEndpoints",
    "activateDevice", "ioThreadInit", "ioThreadDeinit", "deleteActivationHandler",
    "freeDeviceHandle" ]

/-- The name section 4.4 gives to a function of the header (the empty string
for a function it does not list). -/
def specHookName (cName : String) : String :=
  if cName = "WASAPI_PlatformInit" then "platformInit"
  else if cName = "WASAPI_PlatformDeinit" then "platformDeinit"
  else if cName = "WASAPI_PlatformDeinitializeStart" then "platformDeinitStart"
  else if cName = "WASAPI_EnumerateEndpoints" then "enumerateEndpoints"
  else if cName = "WASAPI_ActivateDevice" then "activateDevice"
  else if cName = "WASAPI_PlatformThreadInit" then "ioThreadInit"
  else if cName = "WASAPI_PlatformThreadDeinit" then "ioThreadDeinit"
  else if cName = "WASAPI_PlatformDeleteActivationHandler" then "deleteActivationHandler"
  else if cName = "WASAPI_PlatformFreeDeviceHandle" then "freeDeviceHandle"
  else ""

/-! ### Functions declared in the header whose bodies are in `SDL_wasapi.c` -/

/-- Modelled from the spec: one operation on the device lock, with the thread
that performed it. -/
inductive LockEvent where
  | acquired (thread : Nat)
  | released (thread : Nat)
deriving DecidableEq, Repr

/-- Modelled from the spec: the audio device (`SDL_AudioDevice`, declared in
`SDL_sysaudio.h`, which is not among the sources) as far as section 3 of the
design text describes it: the device lock, given by the thread holding it, the
record of every operation performed on that lock (oldest first), and the
private data `hidden`. -/
structure SDL_AudioDevice where
  lock : Option Nat
  lockLog : List LockEvent
  hidden : SDL_PrivateAudioData
deriving DecidableEq, Repr

/-- Modelled from the spec: the primitive steps a function body can take on a
device in sections 4.3 and 5: take the device lock, give it back, or store a
value in the atomic `device_disconnecting`. -/
inductive DeviceStep where
  | lockDevice
  | unlockDevice
  | setDisconnecting (value : Int)
deriving DecidableEq, Repr

/-- Whether a step operates on the device lock. -/
def DeviceStep.touchesLock : DeviceStep → Bool
  | .lockDevice => true
  | .unlockDevice => true
  | .setDisconnecting _ => false

/-- Modelled from the spec: one step performed by `thread`. Taking the lock
succeeds on a free lock and is recorded; on a held lock the thread waits, so
the step has no result (`none`). Giving the lock back frees it and is
recorded. The atomic store needs no lock and changes only the flag. -/
def DeviceStep.exec (thread : Nat) (d : SDL_AudioDevice) : DeviceStep → Option SDL_AudioDevice
  | .lockDevice =>
      match d.lock with
      | none => some { d with lock := some thread, lockLog := d.lockLog ++ [LockEvent.acquired thread] }
      | some _ => none
  | .unlockDevice =>
      some { d with lock := none, lockLog := d.lockLog ++ [LockEvent.released thread] }
  | .setDisconnecting value =>
      some { d with hidden := { d.hidden with device_disconnecting := value } }

/-- Modelled from the spec: a sequence of steps performed by `thread`, in
order; `none` as soon as one of them waits. -/
def runDeviceSteps (thread : Nat) : List DeviceStep → SDL_AudioDevice → Option SDL_AudioDevice
  | [], d => some d
  | st :: rest, d =>
      match st.exec thread d with
      | none => none
      | some d1 => runDeviceSteps thread rest d1

/-- Modelled from the spec: the body of `WASAPI_DisconnectDevice`
(`flagDisconnect`, section 4.3), which is not among the sources. "Effect:
atomically sets the `disconnecting` flag; does not itself perform teardown",
"with no blocking and no lock acquisition on the device". -/
def WASAPI_DisconnectDevice_body : List DeviceStep :=
  [DeviceStep.setDisconnecting 1]

/-- Modelled from the spec: `WASAPI_DisconnectDevice` called by `thread`; the
result is `none` if the call waits for ever. -/
def WASAPI_DisconnectDevice (thread : Nat) (device : SDL_AudioDevice) : Option SDL_AudioDevice :=
  runDeviceSteps thread WASAPI_DisconnectDevice_body device

/-- Modelled from the spec: the error kinds of section 7. -/
inductive ErrorKind where
  | EnumerationFailure
  | PrepareFailure
  | ActivationFailure
  | DeviceLost
  | DeviceDead
  | TaskSubmissionRejected
  | OutOfMemory
deriving DecidableEq, Repr

/-- A queued call: the `ManagementThreadTask` function pointer and its
`userdata`. -/
structure PendingTask where
  task : Ptr
  userdata : Ptr
deriving DecidableEq, Repr

/-- Modelled from the spec: the state of the management-thread Executor of
section 4.1, whose implementation is not among the sources: the tasks enqueued
and not yet run (oldest first), whether shutdown has begun, and the tasks run
so far with their results (oldest first). -/
structure Executor where
  queue : List PendingTask
  shuttingDown : Bool
  executed : List (PendingTask × Bool)
deriving DecidableEq, Repr

/-- Modelled from the spec: the management thread runs the next queued task
(section 4.1: "tasks run strictly in submission order, one at a time");
`body task userdata` is the result of calling the task. -/
def Executor.runNext (body : Ptr → Ptr → Bool) (e : Executor) : Executor :=
  match e.queue with
  | [] => e
  | t :: rest => { e with queue := rest, executed := e.executed ++ [(t, body t.task t.userdata)] }

/-- Modelled from the spec: the management thread runs every queued task, in
order. -/
def Executor.drain (body : Ptr → Ptr → Bool) (e : Executor) : Executor :=
  { e with queue := [], executed := e.executed ++ e.queue.map (fun t => (t, body t.task t.userdata)) }

/-- Modelled from the spec: the hook `platformDeinitStart`
(`WASAPI_PlatformDeinitializeStart`, section 4.4: "begin graceful shutdown"),
as far as the Executor sees it. -/
def Executor.platformDeinitStart (e : Executor) : Executor :=
  { e with shuttingDown := true }

/-- Modelled from the spec: the body of `WASAPI_ProxyToManagementThread`
(`submit`, section 4.1), which is not among the sources. After shutdown has
begun it "fails immediately without running the task" with
`TaskSubmissionRejected`, "without enqueueing". Otherwise the task is enqueued;
with `wait_until_complete` the call returns once the task "has fully run" and
gives the task's result, without it the call "returns immediately after
enqueueing". -/
def WASAPI_ProxyToManagementThread (body : Ptr → Ptr → Bool) (task userdata : Ptr)
    (wait_until_complete : Bool) (e : Executor) : Except ErrorKind (Option Bool) × Executor :=
  if e.shuttingDown then (.error ErrorKind.TaskSubmissionRejected, e)
  else
    let e1 := { e with queue := e.queue ++ [{ task := task, userdata := userdata }] }
    if wait_until_complete then (.ok (some (body task userdata)), e1.drain body)
    else (.ok none, e1)

/-- What can happen to the Executor: a thread submits, the management thread
runs the next task, or shutdown begins. -/
inductive ExecutorEvent where
  | submit (task userdata : Ptr) (wait_until_complete : Bool)
  | runNext
  | platformDeinitStart
deriving DecidableEq, Repr

/-- The Executor after one event. -/
def Executor.step (body : Ptr → Ptr → Bool) (e : Executor) : ExecutorEvent → Executor
  | .submit task userdata wait => (WASAPI_ProxyToManagementThread body task userdata wait e).2
  | .runNext => e.runNext body
  | .platformDeinitStart => e.platformDeinitStart

/-- The Executor after a sequence of events. -/
def Executor.steps (body : Ptr → Ptr → Bool) (e : Executor) (evs : List ExecutorEvent) : Executor :=
  evs.foldl (Executor.step body) e

/-! ## Concrete inputs used to exercise the embedding -/

/-- A world with one free mutex at address 1 and one held mutex at address 2. -/
def sampleWorld : MutexWorld :=
  { heap := [some { cpp_mutex := { locked := false } }, some { cpp_mutex := { locked := true } }],
    error := SDL_ErrorState.unset, newCalls := 0, assertions := 0 }

/-- An allocator whose first `new` runs out of memory and whose later ones
would succeed. -/
def failFirstAlloc : Nat → NewOutcome := fun k => if k = 0 then NewOutcome.bad_alloc else NewOutcome.ok

/-- An allocator that always succeeds. -/
def okAlloc : Nat → NewOutcome := fun _ => NewOutcome.ok

/-- The wide pref path in the words of the claim: `L\org\app\` when the
organisation is non-empty, `L\app\` otherwise. -/
def prefPath_spec (L org app : WStr) : WStr :=
  if org ≠ [] then L ++ [BACKSLASH] ++ org ++ [BACKSLASH] ++ app ++ [BACKSLASH]
  else L ++ [BACKSLASH] ++ app ++ [BACKSLASH]

/-- The directory of the first `CreateDirectoryW` call of `SDL_SYS_GetPrefPath`. -/
def prefPath_orgDir (L worg : WStr) : WStr :=
  if worg ≠ [] then L ++ [BACKSLASH] ++ worg else L

/-- The directory of the second `CreateDirectoryW` call of `SDL_SYS_GetPrefPath`. -/
def prefPath_appDir (L worg wapp : WStr) : WStr :=
  prefPath_orgDir L worg ++ [BACKSLASH] ++ wapp

/-- A conversion that maps 7-bit text to itself and fails on anything else. -/
def asciiOnly (t : List Nat) : Option (List Nat) :=
  if t.all (fun c => decide (c < 128)) then some t else none

/-- An environment for concrete runs: local folder `C:\L`, install location
`C:\A`, conversions `asciiOnly`, every allocation and every directory creation
succeeds. -/
def sampleEnv : WinRTEnv :=
  { effectiveLocationBuild := false
    apiContractPresent := false
    roamingTempBuild := true
    EffectiveLocation := []
    InstalledLocation := [67, 58, 92, 65]
    LocalFolder := [67, 58, 92, 76]
    RoamingFolder := [67, 58, 92, 82]
    TemporaryFolder := [67, 58, 92, 84]
    WIN_StringToUTF8W := asciiOnly
    WIN_UTF8ToStringW := asciiOnly
    SDL_malloc := fun _ => true
    SDL_GetPersistentString := fun t => some t
    CreateDirectoryW := fun _ _ => (true, 0) }

/-- The environment `sampleEnv` with `SDL_GetPersistentString` failing. -/
def sampleEnvNoPersist : WinRTEnv :=
  { sampleEnv with SDL_GetPersistentString := fun _ => none }

/-- The state before any call: empty caches, no error, no directory created. -/
def freshFs : FsState :=
  { installedPath := [], localPath := [], roamingPath := [], tempPath := [],
    utf8Paths := [], error := SDL_ErrorState.unset, createdDirs := [] }

/-- The state `freshFs` once the install location has been looked up and cached. -/
def installCachedFs : FsState :=
  { freshFs with installedPath := [67, 58, 92, 65],
                 utf8Paths := [(SDL_WinRT_Path.SDL_WINRT_PATH_INSTALLED_LOCATION, [67, 58, 92, 65])] }

/-- The state `freshFs` once the local folder has been looked up. -/
def localCachedFs : FsState :=
  { freshFs with localPath := [67, 58, 92, 76] }

/-- The state `freshFs` after the pref path of organisation `o` and
application `a` has been built. -/
def prefPathDoneFs : FsState :=
  { localCachedFs with
    createdDirs := [[67, 58, 92, 76, 92, 111], [67, 58, 92, 76, 92, 111, 92, 97]] }

/-- An active playback device whose lock is held by thread 7. -/
def sampleDevice : SDL_AudioDevice :=
  { lock := some 7
    lockLog := [LockEvent.acquired 7]
    hidden :=
      { devid := 1, waveformat := 2, client := 3, render := 4, capture := 0, event := 5, task := 6,
        coinitialized := true, framesize := 8, device_disconnecting := 0, device_lost := false,
        device_dead := false, activation_handler := 0 } }

/-! ## Properties of the mutex functions -/

theorem MutexWorld.deref_fresh (w : MutexWorld) : w.deref (w.heap.length + 1) = none := by
  simp [MutexWorld.deref, List.getD]

/-- C4: `SDL_CreateMutex` evaluates `new SDL_Mutex` exactly once. If that
throws `std::bad_alloc` it returns NULL with the out-of-memory error set; if
it throws `std::system_error` it returns NULL with the "unable to create a C++
mutex" error set; so a failed allocation never gives a non-NULL handle, and
the later outcomes of the allocator are never consulted. If the allocation
succeeds it returns a non-NULL pointer to a new, unlocked mutex, leaving the
error slot and every existing mutex as they were. -/
theorem SDL_CreateMutex_reports_allocation_failure (alloc : Nat → NewOutcome) (w : MutexWorld) :
    (alloc w.newCalls = NewOutcome.bad_alloc →
      SDL_CreateMutex alloc w =
        (NULL, { w with error := SDL_ErrorState.outOfMemory, newCalls := w.newCalls + 1 })) ∧
    (∀ code what, alloc w.newCalls = NewOutcome.system_error code what →
      SDL_CreateMutex alloc w =
        (NULL, { w with
          error := SDL_ErrorState.formatted "unable to create a C++ mutex: code=%d; %s"
            [toString code, what],
          newCalls := w.newCalls + 1 })) ∧
    (alloc w.newCalls ≠ NewOutcome.ok → (SDL_CreateMutex alloc w).1 = NULL) ∧
    (SDL_CreateMutex alloc w).2.newCalls = w.newCalls + 1 ∧
    (∀ alloc2 : Nat → NewOutcome, alloc2 w.newCalls = alloc w.newCalls →
      SDL_CreateMutex alloc2 w = SDL_CreateMutex alloc w) ∧
    (alloc w.newCalls = NewOutcome.ok →
      (SDL_CreateMutex alloc w).1 ≠ NULL ∧
      w.deref (SDL_CreateMutex alloc w).1 = none ∧
      (SDL_CreateMutex alloc w).2.deref (SDL_CreateMutex alloc w).1 =
        some { cpp_mutex := { locked := false } } ∧
      (SDL_CreateMutex alloc w).2.error = w.error ∧
      (∀ q obj, w.deref q = some obj → (SDL_CreateMutex alloc w).2.deref q = some obj)) := by
  refine ⟨?_, ?_, ?_, ?_, ?_, ?_⟩
  · intro h
    simp [SDL_CreateMutex, h]
  · intro code what h
    simp [SDL_CreateMutex, h]
  · intro h
    unfold SDL_CreateMutex
    cases hk : alloc w.newCalls with
    | ok => exact absurd hk h
    | bad_alloc => rfl
    | system_error code what => rfl
  · unfold SDL_CreateMutex
    cases alloc w.newCalls <;> rfl
  · intro alloc2 h
    simp [SDL_CreateMutex, h]
  · intro h
    have hres : SDL_CreateMutex alloc w =
        (w.heap.length + 1,
          { w with heap := w.heap ++ [some { cpp_mutex := { locked := false } }],
                   newCalls := w.newCalls + 1 }) := by
      simp [SDL_CreateMutex, h]
    rw [hres]
    refine ⟨by simp [NULL], w.deref_fresh, ?_, rfl, ?_⟩
    · simp [MutexWorld.deref, List.getD]
    · intro q obj hq
      unfold MutexWorld.deref at hq ⊢
      by_cases hq0 : q = 0
      · simp [hq0] at hq
      · simp only [hq0, if_false] at hq ⊢
        have hlt : q - 1 < w.heap.length := by
          by_contra hge
          have : w.heap.getD (q - 1) none = none := by
            simp [List.getD, List.getElem?_eq_none (Nat.le_of_not_lt hge)]
          rw [this] at hq
          exact Option.noConfusion hq
        simpa [List.getD, List.getElem?_append_left hlt] using hq

/-- The C4 property at work: a first allocation that runs out of memory gives NULL
and the out-of-memory error although a retry would succeed; a succeeding one
gives a non-NULL pointer. -/
theorem SDL_CreateMutex_reports_allocation_failure_witness :
    SDL_CreateMutex failFirstAlloc sampleWorld =
        (NULL, { sampleWorld with error := SDL_ErrorState.outOfMemory, newCalls := 1 }) ∧
    (SDL_CreateMutex okAlloc sampleWorld).1 ≠ NULL :=
  ⟨(SDL_CreateMutex_reports_allocation_failure failFirstAlloc sampleWorld).1 (by decide),
   ((SDL_CreateMutex_reports_allocation_failure okAlloc sampleWorld).2.2.2.2.2 (by decide)).1⟩

/-- C8: every mutex function accepts a NULL mutex: `SDL_TryLockMutex(NULL)`
returns true and, like `SDL_LockMutex(NULL)`, `SDL_UnlockMutex(NULL)` and
`SDL_DestroyMutex(NULL)`, leaves every mutex, the error slot and the counters
untouched. For a non-NULL mutex `SDL_TryLockMutex` returns the result of
`try_lock` on its `cpp_mutex`, and the mutex is then in the state `try_lock`
left it in. -/
theorem mutex_functions_tolerate_NULL (w : MutexWorld) :
    SDL_TryLockMutex NULL w = (true, w) ∧
    SDL_LockMutex NULL w = w ∧
    SDL_UnlockMutex NULL w = w ∧
    SDL_DestroyMutex NULL w = w ∧
    (∀ mutex obj, mutex ≠ NULL → w.deref mutex = some obj →
      (SDL_TryLockMutex mutex w).1 = obj.cpp_mutex.try_lock.1 ∧
      (SDL_TryLockMutex mutex w).2.deref mutex = some { cpp_mutex := obj.cpp_mutex.try_lock.2 }) := by
  refine ⟨rfl, rfl, rfl, rfl, ?_⟩
  intro mutex obj hm hd
  have hm0 : mutex ≠ 0 := hm
  have hlt : mutex - 1 < w.heap.length := by
    unfold MutexWorld.deref at hd
    simp only [hm0, if_false] at hd
    by_contra hge
    have : w.heap.getD (mutex - 1) none = none := by
      simp [List.getD, List.getElem?_eq_none (Nat.le_of_not_lt hge)]
    rw [this] at hd
    exact Option.noConfusion hd
  have hres : SDL_TryLockMutex mutex w =
      (obj.cpp_mutex.try_lock.1, w.store mutex (some { cpp_mutex := obj.cpp_mutex.try_lock.2 })) := by
    simp [SDL_TryLockMutex, hm0, hd]
  rw [hres]
  refine ⟨rfl, ?_⟩
  simp [MutexWorld.store, MutexWorld.deref, List.getD, hm0, hlt]

/-- The C8 property at work: try-lock of the free mutex at address 1 succeeds, of
the held mutex at address 2 fails. -/
theorem mutex_functions_tolerate_NULL_witness :
    (SDL_TryLockMutex 1 sampleWorld).1 = true ∧ (SDL_TryLockMutex 2 sampleWorld).1 = false :=
  ⟨((mutex_functions_tolerate_NULL sampleWorld).2.2.2.2 1 { cpp_mutex := { locked := false } }
      (by decide) (by decide)).1,
   ((mutex_functions_tolerate_NULL sampleWorld).2.2.2.2 2 { cpp_mutex := { locked := true } }
      (by decide) (by decide)).1⟩

/-! ## Properties of the filesystem functions -/

theorem SDL_wcslcpy_fits (dst src : WStr) (maxlen : Nat) (h : src.length < maxlen) :
    SDL_wcslcpy dst src maxlen = src := by
  have h1 : maxlen > 0 := by omega
  have h2 : min src.length (maxlen - 1) = src.length := by omega
  simp [SDL_wcslcpy, h1, h2]

theorem SDL_wcslcat_fits (dst src : WStr) (maxlen : Nat) (h : dst.length + src.length < maxlen) :
    SDL_wcslcat dst src maxlen = dst ++ src := by
  have h1 : dst.length < maxlen := by omega
  have h2 : src.length < maxlen - dst.length := by omega
  simp [SDL_wcslcat, h1, SDL_wcslcpy_fits [] src _ h2]

theorem SDL_snprintf_path_fits (src : CStr) :
    SDL_snprintf_path (src.length + 2) src = src ++ [BACKSLASH] := by
  simp [SDL_snprintf_path]

/-- C7: whenever `SDL_GetWinRTFSPath(SDL_WINRT_PATH_INSTALLED_LOCATION)`
returns a path `P` and the buffer of `strlen(P) + 2` bytes is obtained,
`SDL_SYS_GetBasePath` returns `P` followed by one backslash, `strlen(P) + 1`
bytes long, so the buffer cuts nothing off; whenever it returns NULL,
`SDL_SYS_GetBasePath` returns NULL with the error
"Couldn't locate our basepath: %s" around the error that was set. -/
theorem SDL_SYS_GetBasePath_appends_backslash (env : WinRTEnv) (s : FsState) :
    (∀ (P : CStr) (s1 : FsState),
      SDL_GetWinRTFSPath env SDL_WinRT_Path.SDL_WINRT_PATH_INSTALLED_LOCATION s = some (some P, s1) →
      env.SDL_malloc (P.length + 2) = true →
      SDL_SYS_GetBasePath env s = some (some (P ++ [BACKSLASH]), s1) ∧
      (P ++ [BACKSLASH]).length = P.length + 1 ∧
      SDL_snprintf_path (P.length + 2) P = P ++ [BACKSLASH]) ∧
    (∀ s1 : FsState,
      SDL_GetWinRTFSPath env SDL_WinRT_Path.SDL_WINRT_PATH_INSTALLED_LOCATION s = some (none, s1) →
      SDL_SYS_GetBasePath env s =
        some (none, { s1 with
          error := SDL_ErrorState.formattedWith "Couldn't locate our basepath: %s" s1.error })) := by
  constructor
  · intro P s1 hP hm
    refine ⟨?_, by simp, SDL_snprintf_path_fits P⟩
    simp [SDL_SYS_GetBasePath, hP, hm, SDL_snprintf_path_fits]
  · intro s1 hP
    simp [SDL_SYS_GetBasePath, hP]

/-- The C7 property at work: install location `C:\A` gives the base path `C:\A\`;
with no persistent string available the call fails with the base path error. -/
theorem SDL_SYS_GetBasePath_appends_backslash_witness :
    SDL_SYS_GetBasePath sampleEnv freshFs = some (some [67, 58, 92, 65, 92], installCachedFs) ∧
    SDL_SYS_GetBasePath sampleEnvNoPersist freshFs =
        some (none,
          { installCachedFs with
            error := SDL_ErrorState.formattedWith "Couldn't locate our basepath: %s"
              SDL_ErrorState.unset }) :=
  ⟨((SDL_SYS_GetBasePath_appends_backslash sampleEnv freshFs).1 [67, 58, 92, 65] installCachedFs
      (by decide) (by decide)).1,
   (SDL_SYS_GetBasePath_appends_backslash sampleEnvNoPersist freshFs).2 installCachedFs
      (by decide)⟩

theorem prefPath_appDir_backslash (L worg wapp : WStr) :
    prefPath_appDir L worg wapp ++ [BACKSLASH] = prefPath_spec L worg wapp := by
  unfold prefPath_appDir prefPath_orgDir prefPath_spec
  split <;> simp

theorem prefPath_spec_getLast (L worg wapp : WStr) :
    (prefPath_spec L worg wapp).getLast? = some BACKSLASH := by
  rw [← prefPath_appDir_backslash]
  exact List.getLast?_concat _

theorem prefPath_appDir_length (L worg wapp : WStr) :
    (prefPath_appDir L worg wapp).length ≤ L.length + worg.length + wapp.length + 2 := by
  unfold prefPath_appDir prefPath_orgDir
  split
  · simp; omega
  · simp; omega

/-- C6: `SDL_SYS_GetPrefPath` with a NULL `app` returns NULL, sets the
invalid-parameter error for "app" and creates no directory; a NULL `org` gives
the same run as the empty string. With `app` non-NULL, the local folder `L`
found and shorter than `MAX_PATH`, both strings converted to wide strings
`worg` and `wapp`, the length check `len(worg) + len(wapp) + len(L) + 3 + 1 <=
MAX_PATH` passed and each of the two `CreateDirectoryW` calls either
succeeding or failing with `ERROR_ALREADY_EXISTS`, it returns the UTF-8
conversion of `L\worg\wapp\` when `worg` is non-empty and of `L\wapp\` when it
is empty, having asked for the directories `L\worg` (or `L`) and then the one
of the application; that wide path ends with a backslash, and so does the
returned string when the conversion keeps a final backslash. When the
conversion of `org` is empty exactly for an empty `org`, the choice between
the two forms is the one between a non-empty and an empty (or NULL) `org`. -/
theorem SDL_SYS_GetPrefPath_builds_path (env : WinRTEnv) (s : FsState) :
    (∀ org : Option CStr,
      SDL_SYS_GetPrefPath env org none s =
        (none, { s with error := SDL_ErrorState.invalidParam "app" }) ∧
      (SDL_SYS_GetPrefPath env org none s).2.createdDirs = s.createdDirs) ∧
    (∀ app : Option CStr,
      SDL_SYS_GetPrefPath env none app s = SDL_SYS_GetPrefPath env (some []) app s) ∧
    (∀ (org : Option CStr) (app : CStr) (L worg wapp : WStr) (s1 : FsState),
      SDL_GetWinRTFSPathUNICODE env SDL_WinRT_Path.SDL_WINRT_PATH_LOCAL_FOLDER s = (some L, s1) →
      L.length < MAX_PATH →
      env.WIN_UTF8ToStringW (org.getD []) = some worg →
      env.WIN_UTF8ToStringW app = some wapp →
      worg.length + wapp.length + L.length + 3 + 1 ≤ MAX_PATH →
      ((env.CreateDirectoryW s1.createdDirs (prefPath_orgDir L worg)).1 = true ∨
        (env.CreateDirectoryW s1.createdDirs (prefPath_orgDir L worg)).2 = ERROR_ALREADY_EXISTS) →
      ((env.CreateDirectoryW (s1.createdDirs ++ [prefPath_orgDir L worg])
          (prefPath_appDir L worg wapp)).1 = true ∨
        (env.CreateDirectoryW (s1.createdDirs ++ [prefPath_orgDir L worg])
          (prefPath_appDir L worg wapp)).2 = ERROR_ALREADY_EXISTS) →
      SDL_SYS_GetPrefPath env org (some app) s =
        (env.WIN_StringToUTF8W (prefPath_spec L worg wapp),
          { s1 with createdDirs :=
              s1.createdDirs ++ [prefPath_orgDir L worg, prefPath_appDir L worg wapp] }) ∧
      (prefPath_spec L worg wapp).getLast? = some BACKSLASH ∧
      (prefPath_spec L worg wapp).length + 1 ≤ MAX_PATH ∧
      ((∀ w u, env.WIN_StringToUTF8W (w ++ [BACKSLASH]) = some u → u.getLast? = some BACKSLASH) →
        ∀ r, (SDL_SYS_GetPrefPath env org (some app) s).1 = some r →
          r.getLast? = some BACKSLASH) ∧
      ((worg = [] ↔ org.getD [] = []) →
        (SDL_SYS_GetPrefPath env org (some app) s).1 =
          env.WIN_StringToUTF8W
            (if org.getD [] ≠ [] then L ++ [BACKSLASH] ++ worg ++ [BACKSLASH] ++ wapp ++ [BACKSLASH]
             else L ++ [BACKSLASH] ++ wapp ++ [BACKSLASH]))) := by
  refine ⟨fun org => ⟨rfl, rfl⟩, ?_, ?_⟩
  · intro app
    cases app <;> rfl
  · intro org app L worg wapp s1 hL hlen horg happ hcheck hdir1 hdir2
    have hmain : SDL_SYS_GetPrefPath env org (some app) s =
        (env.WIN_StringToUTF8W (prefPath_spec L worg wapp),
          { s1 with createdDirs :=
              s1.createdDirs ++ [prefPath_orgDir L worg, prefPath_appDir L worg wapp] }) := by
      have hcpy : SDL_wcslcpy [] L MAX_PATH = L := SDL_wcslcpy_fits [] L MAX_PATH hlen
      have hn1 : ¬ (L.length ≥ MAX_PATH) := by omega
      have hn2 : ¬ (worg.length + wapp.length + L.length + 3 + 1 > MAX_PATH) := by omega
      have horgDir :
          (if worg ≠ [] then
              SDL_wcslcat (SDL_wcslcat L [BACKSLASH] (worg.length + wapp.length + L.length + 3 + 1))
                worg (worg.length + wapp.length + L.length + 3 + 1)
            else L) = prefPath_orgDir L worg := by
        unfold prefPath_orgDir
        split
        · rw [SDL_wcslcat_fits L [BACKSLASH] _ (by simp; omega)]
          rw [SDL_wcslcat_fits _ worg _ (by simp; omega)]
        · rfl
      have hlenOrg : (prefPath_orgDir L worg).length ≤ L.length + worg.length + 1 := by
        unfold prefPath_orgDir
        split
        · simp; omega
        · omega
      have hcat2 : SDL_wcslcat (SDL_wcslcat (prefPath_orgDir L worg) [BACKSLASH]
            (worg.length + wapp.length + L.length + 3 + 1)) wapp
            (worg.length + wapp.length + L.length + 3 + 1) = prefPath_appDir L worg wapp := by
        rw [SDL_wcslcat_fits _ [BACKSLASH] _ (by simp; omega)]
        rw [SDL_wcslcat_fits _ wapp _ (by simp; omega)]
        rfl
      have hcat3 : SDL_wcslcat (prefPath_appDir L worg wapp) [BACKSLASH]
            (worg.length + wapp.length + L.length + 3 + 1) = prefPath_spec L worg wapp := by
        have := prefPath_appDir_length L worg wapp
        rw [SDL_wcslcat_fits _ [BACKSLASH] _ (by simp; omega)]
        exact prefPath_appDir_backslash L worg wapp
      have hd1 : ¬ ((env.CreateDirectoryW s1.createdDirs (prefPath_orgDir L worg)).1 = false ∧
          (env.CreateDirectoryW s1.createdDirs (prefPath_orgDir L worg)).2 ≠ ERROR_ALREADY_EXISTS) := by
        rintro ⟨h1, h2⟩
        rcases hdir1 with h | h
        · rw [h] at h1; exact Bool.noConfusion h1
        · exact h2 h
      have hd2 : ¬ ((env.CreateDirectoryW (s1.createdDirs ++ [prefPath_orgDir L worg])
            (prefPath_appDir L worg wapp)).1 = false ∧
          (env.CreateDirectoryW (s1.createdDirs ++ [prefPath_orgDir L worg])
            (prefPath_appDir L worg wapp)).2 ≠ ERROR_ALREADY_EXISTS) := by
        rintro ⟨h1, h2⟩
        rcases hdir2 with h | h
        · rw [h] at h1; exact Bool.noConfusion h1
        · exact h2 h
      unfold SDL_SYS_GetPrefPath
      simp only [hL, horg, happ, hcpy, hn1, hn2, if_false, horgDir, hd1, hcat2, hd2, hcat3]
      simp
    refine ⟨hmain, prefPath_spec_getLast L worg wapp, ?_, ?_, ?_⟩
    · have := prefPath_appDir_length L worg wapp
      rw [← prefPath_appDir_backslash]
      simp
      omega
    · intro hconv r hr
      rw [hmain] at hr
      have hsplit : prefPath_spec L worg wapp = prefPath_appDir L worg wapp ++ [BACKSLASH] :=
        (prefPath_appDir_backslash L worg wapp).symm
      rw [hsplit] at hr
      exact hconv _ _ hr
    · intro hiff
      rw [hmain]
      show env.WIN_StringToUTF8W (prefPath_spec L worg wapp) = _
      unfold prefPath_spec
      by_cases hw : worg = []
      · have ho : org.getD [] = [] := hiff.1 hw
        simp [hw, ho]
      · have ho : org.getD [] ≠ [] := fun h => hw (hiff.2 h)
        simp [hw, ho]

/-- The C6 property at work: local folder `C:\L`, organisation `o` and application
`a` give `C:\L\o\a\` after asking for `C:\L\o` and `C:\L\o\a`. -/
theorem SDL_SYS_GetPrefPath_builds_path_witness :
    SDL_SYS_GetPrefPath sampleEnv (some [111]) (some [97]) freshFs =
      (some [67, 58, 92, 76, 92, 111, 92, 97, 92], prefPathDoneFs) :=
  ((SDL_SYS_GetPrefPath_builds_path sampleEnv freshFs).2.2 (some [111]) [97] [67, 58, 92, 76]
    [111] [97] localCachedFs (by decide) (by decide) (by decide) (by decide) (by decide)
    (Or.inl (by decide)) (Or.inl (by decide))).1

/-! ## Properties of the WASAPI declarations -/

/-- C5, as stated, fails: the platform hooks declared in the header are not
eight in number. -/
theorem platformHooks_not_eight :
    ¬ ((platformHooks.map Prototype.name).dedup.length = 8 ∧
       platformHooks.map (fun d => specHookName d.name) = specHookSeam) := by
  decide

/-- C5, amended: the header declares exactly nine platform hooks, pairwise
distinct, and they are, in order, the nine hooks listed in section 4.4. -/
theorem platformHooks_are_the_nine_listed :
    (platformHooks.map Prototype.name).dedup.length = 9 ∧
    platformHooks.length = 9 ∧
    specHookSeam.dedup.length = 9 ∧
    platformHooks.map (fun d => specHookName d.name) = specHookSeam := by
  decide

theorem DeviceStep.exec_lockLog_length (thread : Nat) (st : DeviceStep)
    (d d1 : SDL_AudioDevice) (h : st.exec thread d = some d1) :
    d1.lockLog.length = d.lockLog.length + (if st.touchesLock then 1 else 0) := by
  cases st with
  | lockDevice =>
      unfold DeviceStep.exec at h
      cases hl : d.lock with
      | none =>
          simp only [hl, Option.some.injEq] at h
          subst h
          simp [DeviceStep.touchesLock]
      | some t => simp [hl] at h
  | unlockDevice =>
      simp only [DeviceStep.exec, Option.some.injEq] at h
      subst h
      simp [DeviceStep.touchesLock]
  | setDisconnecting v =>
      simp only [DeviceStep.exec, Option.some.injEq] at h
      subst h
      simp [DeviceStep.touchesLock]

/-- The lock record is faithful: a run that ends has added one entry for each
of its steps on the lock. -/
theorem runDeviceSteps_lockLog_length (thread : Nat) (steps : List DeviceStep) :
    ∀ d d1 : SDL_AudioDevice, runDeviceSteps thread steps d = some d1 →
      d1.lockLog.length = d.lockLog.length + steps.countP DeviceStep.touchesLock := by
  induction steps with
  | nil =>
      intro d d1 h
      simp only [runDeviceSteps, Option.some.injEq] at h
      subst h
      simp
  | cons st rest ih =>
      intro d d1 h
      unfold runDeviceSteps at h
      cases hst : st.exec thread d with
      | none => simp [hst] at h
      | some d2 =>
          simp only [hst] at h
          have h1 := DeviceStep.exec_lockLog_length thread st d d2 hst
          have h2 := ih d2 d1 h
          rw [h2, h1, List.countP_cons]
          omega

/-- A run that ends with the lock record as it found it took no step on the
lock. -/
theorem runDeviceSteps_no_lock_step (thread : Nat) (steps : List DeviceStep)
    (d d1 : SDL_AudioDevice) (h : runDeviceSteps thread steps d = some d1)
    (hlog : d1.lockLog = d.lockLog) :
    DeviceStep.lockDevice ∉ steps ∧ DeviceStep.unlockDevice ∉ steps := by
  have hlen := runDeviceSteps_lockLog_length thread steps d d1 h
  rw [hlog] at hlen
  have hzero : steps.countP DeviceStep.touchesLock = 0 := by omega
  rw [List.countP_eq_zero] at hzero
  constructor
  · intro hmem
    exact hzero _ hmem rfl
  · intro hmem
    exact hzero _ hmem rfl

/-- C3: `WASAPI_DisconnectDevice`, called by any thread on a device whose lock
is free or held by anyone, returns without waiting and leaves the device with
`device_disconnecting` set and everything else as it was: the native
interfaces, handles, format, frame size, the `device_lost`, `device_dead` and
`coinitialized` flags, the activation handler and the device id are unchanged.
It performs no operation on the device lock: the lock has the holder it had,
the record of lock operations has no new entry, its body has no lock step, and
no sequence of steps with the same outcome on this device takes or gives back
the lock. -/
theorem WASAPI_DisconnectDevice_sets_flag_only (thread : Nat) (device : SDL_AudioDevice) :
    ∃ d : SDL_AudioDevice,
      WASAPI_DisconnectDevice thread device = some d ∧
      d.hidden.device_disconnecting = 1 ∧
      d.lock = device.lock ∧
      d.lockLog = device.lockLog ∧
      d.hidden.client = device.hidden.client ∧
      d.hidden.render = device.hidden.render ∧
      d.hidden.capture = device.hidden.capture ∧
      d.hidden.event = device.hidden.event ∧
      d.hidden.task = device.hidden.task ∧
      d.hidden.waveformat = device.hidden.waveformat ∧
      d.hidden.device_lost = device.hidden.device_lost ∧
      d.hidden.device_dead = device.hidden.device_dead ∧
      d.hidden.activation_handler = device.hidden.activation_handler ∧
      d.hidden.devid = device.hidden.devid ∧
      d.hidden.coinitialized = device.hidden.coinitialized ∧
      d.hidden.framesize = device.hidden.framesize ∧
      (∀ holder : Option Nat,
        WASAPI_DisconnectDevice thread { device with lock := holder } =
          some { d with lock := holder }) ∧
      DeviceStep.lockDevice ∉ WASAPI_DisconnectDevice_body ∧
      DeviceStep.unlockDevice ∉ WASAPI_DisconnectDevice_body ∧
      (∀ steps : List DeviceStep,
        runDeviceSteps thread steps device = WASAPI_DisconnectDevice thread device →
        DeviceStep.lockDevice ∉ steps ∧ DeviceStep.unlockDevice ∉ steps) := by
  refine ⟨{ device with hidden := { device.hidden with device_disconnecting := 1 } },
    rfl, rfl, rfl, rfl, rfl, rfl, rfl, rfl, rfl, rfl, rfl, rfl, rfl, rfl, rfl, rfl,
    fun _ => rfl, by decide, by decide, ?_⟩
  intro steps h
  exact runDeviceSteps_no_lock_step thread steps device
    { device with hidden := { device.hidden with device_disconnecting := 1 } } h rfl

/-- The C3 property at work on a device whose lock thread 7 holds: a call from
thread 9 returns with the flag set, and a body storing 0 and then 1, which has
the same outcome, has no lock step; a body that takes the lock first waits. -/
theorem WASAPI_DisconnectDevice_sets_flag_only_witness :
    (∃ d : SDL_AudioDevice, WASAPI_DisconnectDevice 9 sampleDevice = some d ∧
      d.hidden.device_disconnecting = 1 ∧ d.lock = some 7 ∧ d.lockLog = [LockEvent.acquired 7]) ∧
    DeviceStep.lockDevice ∉ [DeviceStep.setDisconnecting 0, DeviceStep.setDisconnecting 1] ∧
    runDeviceSteps 9 [DeviceStep.lockDevice, DeviceStep.setDisconnecting 1, DeviceStep.unlockDevice]
      sampleDevice = none := by
  obtain ⟨d, hd, hflag, hlock, hlog, _, _, _, _, _, _, _, _, _, _, _, _, _, _, _, hsteps⟩ :=
    WASAPI_DisconnectDevice_sets_flag_only 9 sampleDevice
  exact ⟨⟨d, hd, hflag, hlock, hlog⟩,
    (hsteps [DeviceStep.setDisconnecting 0, DeviceStep.setDisconnecting 1] (by decide)).1,
    by decide⟩

theorem Executor.step_keeps_shuttingDown (body : Ptr → Ptr → Bool) (e : Executor)
    (ev : ExecutorEvent) (h : e.shuttingDown = true) : (e.step body ev).shuttingDown = true := by
  cases ev with
  | submit task userdata wait => simp [Executor.step, WASAPI_ProxyToManagementThread, h]
  | runNext =>
      unfold Executor.step Executor.runNext
      cases e.queue <;> simp [h]
  | platformDeinitStart => rfl

theorem Executor.steps_keep_shuttingDown (body : Ptr → Ptr → Bool) (evs : List ExecutorEvent) :
    ∀ e : Executor, e.shuttingDown = true → (e.steps body evs).shuttingDown = true := by
  induction evs with
  | nil => intro e h; exact h
  | cons ev rest ih =>
      intro e h
      exact ih (e.step body ev) (Executor.step_keeps_shuttingDown body e ev h)

/-- C2: once `platformDeinitStart` has run, whatever happens to the Executor
afterwards, every `WASAPI_ProxyToManagementThread` call, with or without
`wait_until_complete`, fails with `TaskSubmissionRejected` and leaves the
Executor exactly as it was: the queue holds the same tasks and no task has
been run. -/
theorem submit_after_shutdown_is_rejected (body : Ptr → Ptr → Bool) (e : Executor)
    (evs : List ExecutorEvent) (task userdata : Ptr) (wait_until_complete : Bool) :
    WASAPI_ProxyToManagementThread body task userdata wait_until_complete
        (e.platformDeinitStart.steps body evs) =
      (Except.error ErrorKind.TaskSubmissionRejected, e.platformDeinitStart.steps body evs) ∧
    (WASAPI_ProxyToManagementThread body task userdata wait_until_complete
        (e.platformDeinitStart.steps body evs)).2.queue =
      (e.platformDeinitStart.steps body evs).queue ∧
    (WASAPI_ProxyToManagementThread body task userdata wait_until_complete
        (e.platformDeinitStart.steps body evs)).2.executed =
      (e.platformDeinitStart.steps body evs).executed := by
  have h : (e.platformDeinitStart.steps body evs).shuttingDown = true :=
    Executor.steps_keep_shuttingDown body evs e.platformDeinitStart rfl
  simp [WASAPI_ProxyToManagementThread, h]

end SDL
